import Mathlib

/-!
Formal model of the OpenUTM VM control plane
(src/apps/tauri/src-tauri: main.rs, commands.rs, qemu/controller.rs,
qemu/command.rs, config/mod.rs, storage/mod.rs).

The Rust command layer is embedded as pure state transformers over an
explicit system state (registry rows, disk files, the supervisor table of
running VM handles, and the display-session map).  Environment effects that
can fail nondeterministically (process spawn, qemu-img disk creation,
SQLite writes) are passed in as explicit outcome parameters, so every
execution path of the source is represented by some choice of parameters.
-/

namespace OpenUTM

/-- Association-list lookup, mirroring HashMap.get / the SQL SELECT by id. -/
def kvGet {α : Type} : List (String × α) → String → Option α
  | [], _ => none
  | (k, v) :: rest, key => if k = key then some v else kvGet rest key

/-- Association-list insert-or-replace, mirroring HashMap.insert / SQL UPDATE. -/
def kvSet {α : Type} : List (String × α) → String → α → List (String × α)
  | [], key, val => [(key, val)]
  | (k, v) :: rest, key, val =>
    if k = key then (key, val) :: rest else (k, v) :: kvSet rest key val

/-- Association-list removal, mirroring HashMap.remove / SQL DELETE by id. -/
def kvRemove {α : Type} : List (String × α) → String → List (String × α)
  | [], _ => []
  | (k, v) :: rest, key =>
    if k = key then kvRemove rest key else (k, v) :: kvRemove rest key

/-- VMStatus from main.rs. -/
inductive VMStatus
  | running
  | stopped
  | paused
  | error
deriving DecidableEq, Repr

/-- VMConfig from main.rs (the fields consumed by commands.rs; u32 fields
are modelled as Nat, no arithmetic overflows them here). -/
structure VMConfig where
  name : String
  memoryMb : Nat
  cpuCores : Nat
  diskSizeGb : Nat
  os : String
deriving DecidableEq, Repr

/-- VMRecord from config/mod.rs: one durable registry row. -/
structure VMRecord where
  id : String
  name : String
  status : String
  memoryMb : Nat
  cpuCores : Nat
  diskSizeGb : Nat
  os : String
deriving DecidableEq, Repr

/-- VM from main.rs. -/
structure VM where
  id : String
  name : String
  status : VMStatus
  config : VMConfig
deriving DecidableEq, Repr

/-- DisplaySession from main.rs, restricted to the fields that
commands.rs constructs and mutates. -/
structure DisplaySession where
  vmId : String
  protocol : String
  host : String
  port : Nat
  uri : String
  status : String
  reconnectAttempts : Nat
  lastError : Option String
deriving DecidableEq, Repr

/-- VMHandle from qemu/controller.rs: the supervisor entry for one running
VM process (the Child object itself is represented by its pid). -/
structure VMHandle where
  vmId : String
  pid : Nat
  qmpSocket : Option String
deriving DecidableEq, Repr

/-- Whole-system state threaded through the command layer:
the SQLite vms table, the set of allocated qcow2 disk files (by vm id),
the storage directory, the supervisor running-VM table, and the
display-session map. -/
structure SysState where
  registry : List (String × VMRecord)
  disks : List String
  storageDir : String
  table : List (String × VMHandle)
  sessions : List (String × DisplaySession)
deriving DecidableEq, Repr

/-- Rust str::trim().is_empty(): true exactly when every char of the
string is whitespace (ASCII whitespace in this model). -/
def blankId (s : String) : Bool :=
  s.data.all (fun c => c.isWhitespace)

/-- UTF-8 encoding of one scalar value, as in Rust str::as_bytes. -/
def utf8Bytes (c : Char) : List Nat :=
  let n := c.toNat
  if n < 128 then [n]
  else if n < 2048 then [192 + n / 64, 128 + n % 64]
  else if n < 65536 then [224 + n / 4096, 128 + n / 64 % 64, 128 + n % 64]
  else [240 + n / 262144, 128 + n / 4096 % 64, 128 + n / 64 % 64, 128 + n % 64]

/-- UTF-8 byte sequence of a string. -/
def stringBytes (s : String) : List Nat :=
  s.data.foldr (fun c acc => utf8Bytes c ++ acc) []

/-- One hash step of resolve_spice_port (commands.rs line 110):
u16 wrapping multiply by 31, wrapping add of the byte, then mod 1000. -/
def spiceHashStep (hash b : Nat) : Nat :=
  (hash * 31 % 65536 + b) % 65536 % 1000

/-- resolve_spice_port from commands.rs: polynomial rolling hash over the
UTF-8 bytes of the VM id, reduced mod 1000, offset by base port 5900. -/
def resolve_spice_port (vmId : String) : Nat :=
  5900 + (stringBytes vmId).foldl spiceHashStep 0

/-- Every hash step lands strictly below the 1000 window. -/
lemma spiceHashStep_lt (hash b : Nat) : spiceHashStep hash b < 1000 := by
  unfold spiceHashStep
  exact Nat.mod_lt _ (by norm_num)

/-- The folded hash stays strictly below 1000 from any sub-1000 seed. -/
lemma spiceFold_lt (l : List Nat) (h : Nat) (hh : h < 1000) :
    l.foldl spiceHashStep h < 1000 := by
  induction l generalizing h with
  | nil => simpa using hh
  | cons b rest ih =>
    simpa using ih (spiceHashStep h b) (spiceHashStep_lt h b)

deriving instance DecidableEq for Except

/-- Errors from error.rs, restricted to the variants reached by the
modelled code paths; toMessage is the thiserror Display string used by
the command layer through map_err of to_string. -/
inductive AppError
  | vmError (msg : String)
  | ioError (msg : String)
  | dbError (msg : String)
  | qemuError (msg : String)
deriving DecidableEq, Repr

/-- Display strings of error.rs. -/
def AppError.toMessage : AppError → String
  | .vmError msg => "VM error: " ++ msg
  | .ioError msg => "IO error: " ++ msg
  | .dbError msg => "Database error: " ++ msg
  | .qemuError msg => "QEMU error: " ++ msg

/-- validate_vm_config from commands.rs. -/
def validate_vm_config (config : VMConfig) : Except String Unit :=
  if blankId config.name then .error ("VM name cannot be empty")
  else if config.memoryMb < 512 then .error ("Memory must be at least 512 MB")
  else if config.cpuCores = 0 then .error ("CPU cores must be at least 1")
  else if config.diskSizeGb = 0 then .error ("Disk size must be at least 1 GB")
  else .ok ()

/-- ASCII lowercasing of one char, as in Rust to_ascii_lowercase. -/
def asciiLowerChar (c : Char) : Char :=
  if 65 ≤ c.toNat ∧ c.toNat ≤ 90 then Char.ofNat (c.toNat + 32) else c

/-- ASCII lowercasing of a string, as in Rust to_ascii_lowercase. -/
def asciiLower (s : String) : String :=
  s.map asciiLowerChar

/-- parse_vm_status from commands.rs: unknown tags default to Stopped. -/
def parse_vm_status (status : String) : VMStatus :=
  let s := asciiLower status
  if s = "running" then .running
  else if s = "paused" then .paused
  else if s = "error" then .error
  else .stopped

/-- status_to_storage from commands.rs. -/
def status_to_storage : VMStatus → String
  | .running => "running"
  | .paused => "paused"
  | .error => "error"
  | .stopped => "stopped"

/-- map_record_to_vm from commands.rs. -/
def map_record_to_vm (record : VMRecord) : VM :=
  { id := record.id, name := record.name,
    status := parse_vm_status record.status,
    config := { name := record.name, memoryMb := record.memoryMb,
                cpuCores := record.cpuCores, diskSizeGb := record.diskSizeGb,
                os := record.os } }

/-- disk_path from commands.rs (PathBuf join rendered as string concat). -/
def disk_path (storageDir : String) (vmId : String) : String :=
  storageDir ++ "/" ++ vmId ++ ".qcow2"

/-- Accelerator from qemu/command.rs. -/
inductive Accelerator
  | hvf
  | kvm
  | whpx
  | tcg
deriving DecidableEq, Repr

/-- Accelerator::as_str. -/
def Accelerator.as_str : Accelerator → String
  | .hvf => "hvf"
  | .kvm => "kvm"
  | .whpx => "whpx"
  | .tcg => "tcg"

/-- MachineType from qemu/command.rs. -/
inductive MachineType
  | q35
  | i440fx
  | virt
deriving DecidableEq, Repr

/-- MachineType::as_str. -/
def MachineType.as_str : MachineType → String
  | .q35 => "q35"
  | .i440fx => "i440fx"
  | .virt => "virt"

/-- DriveConfig from qemu/command.rs. -/
structure DriveConfig where
  id : String
  file : String
  format : String
  interface : String
deriving DecidableEq, Repr

/-- NetdevConfig from qemu/command.rs; the Rust options HashMap has
unspecified iteration order and is modelled as an insertion-ordered list. -/
structure NetdevConfig where
  id : String
  kind : String
  options : List (String × String)
deriving DecidableEq, Repr

/-- DisplayConfig from qemu/command.rs, options as for NetdevConfig. -/
structure DisplayConfig where
  kind : String
  port : Option Nat
  options : List (String × String)
deriving DecidableEq, Repr

/-- QemuCommand builder state from qemu/command.rs. -/
structure QemuCommand where
  machine : Option MachineType
  accelerator : Option Accelerator
  cpuCount : Option Nat
  memoryMb : Option Nat
  drives : List DriveConfig
  netdevs : List NetdevConfig
  display : Option DisplayConfig
  usbTablet : Bool
deriving DecidableEq, Repr

/-- One -drive argument value. -/
def driveStr (d : DriveConfig) : String :=
  "file=" ++ d.file ++ ",format=" ++ d.format ++ ",if=" ++ d.interface

/-- One -netdev argument value. -/
def netdevStr (n : NetdevConfig) : String :=
  n.options.foldl (fun acc kv => acc ++ "," ++ kv.1 ++ "=" ++ kv.2)
    (n.kind ++ ",id=" ++ n.id)

/-- The -spice argument value, built as in qemu/command.rs. -/
def spiceStr (d : DisplayConfig) : String :=
  let base := match d.port with
    | some p => "port=" ++ toString p
    | none => ""
  d.options.foldl
    (fun acc kv => (if acc.isEmpty then acc else acc ++ ",") ++ kv.1 ++ "=" ++ kv.2)
    base

/-- QemuCommand::build from qemu/command.rs: the ordered launch argument
list, starting with the binary name. -/
def QemuCommand.build (c : QemuCommand) : List String :=
  ["qemu-system-x86_64"]
    ++ (match c.machine with
        | some m => ["-machine", m.as_str]
        | none => [])
    ++ (match c.accelerator with
        | some a => ["-accel", a.as_str]
        | none => [])
    ++ (match c.cpuCount with
        | some n => ["-smp", toString n]
        | none => [])
    ++ (match c.memoryMb with
        | some m => ["-m", toString m]
        | none => [])
    ++ c.drives.foldr (fun d acc => "-drive" :: driveStr d :: acc) []
    ++ c.netdevs.foldr (fun n acc => "-netdev" :: netdevStr n :: acc) []
    ++ (match c.display with
        | some d => if d.kind = "spice" then ["-spice", spiceStr d] else []
        | none => [])
    ++ (if c.usbTablet then ["-device", "usb-tablet"] else [])

/-- build_start_args from commands.rs.  The accelerator is a parameter
because default_accelerator is selected by target_os cfg.  The two
map_err calls on cpu and memory produce the prefixed messages. -/
def build_start_args (accel : Accelerator) (vm : VMRecord) (disk : String)
    (qmpSocket : String) : Except String (List String) :=
  if vm.cpuCores = 0 then
    .error ("Invalid CPU config: CPU count must be > 0")
  else if vm.memoryMb = 0 then
    .error ("Invalid memory config: Memory must be > 0 MB")
  else
    let command : QemuCommand :=
      { machine := some MachineType.q35
        accelerator := some accel
        cpuCount := some vm.cpuCores
        memoryMb := some vm.memoryMb
        drives := [{ id := "disk0", file := disk, format := "qcow2",
                     interface := "virtio" }]
        netdevs := [{ id := "net0", kind := "user", options := [] }]
        display := some { kind := "spice",
                          port := some (resolve_spice_port vm.id),
                          options := [("addr", "127.0.0.1"),
                                      ("disable-ticketing", "on")] }
        usbTablet := true }
    let args := command.build
    let args := if args.isEmpty then args else args.tail
    .ok (args ++
      ["-qmp", "unix:" ++ qmpSocket ++ ",server=on,wait=off",
       "-name", vm.name])

/-- build_display_session from commands.rs. -/
def build_display_session (vmId : String) (status : String)
    (reconnectAttempts : Nat) (lastError : Option String) : DisplaySession :=
  let port := resolve_spice_port vmId
  { vmId := vmId, protocol := "spice", host := "127.0.0.1",
    port := port, uri := "spice://127.0.0.1:" ++ toString port,
    status := status, reconnectAttempts := reconnectAttempts,
    lastError := lastError }

/-- fetch_vm_or_err from commands.rs; registry reads are pure lookups in
this model (read-side SQLite failures are not injected). -/
def fetch_vm_or_err (registry : List (String × VMRecord)) (id : String) :
    Except String VMRecord :=
  match kvGet registry id with
  | some r => .ok r
  | none => .error ("VM " ++ id ++ " not found")

/-- update_vm_status from commands.rs: fetch the row, rewrite its status
tag, persist via ConfigStore::update_vm.  updErr injects an SQLite write
failure; the rows-affected-zero branch of update_vm is unreachable here
because the fetch just found the row in the unchanged registry. -/
def update_vm_status (registry : List (String × VMRecord)) (vmId : String)
    (status : VMStatus) (updErr : Option String) :
    Except String (List (String × VMRecord)) :=
  match fetch_vm_or_err registry vmId with
  | .error e => .error e
  | .ok r =>
    match updErr with
    | some e => .error e
    | none => .ok (kvSet registry vmId { r with status := status_to_storage status })

/-- DiskManager::create_disk from storage/mod.rs at the state level: on
success the qcow2 file for the id exists; createErr injects a qemu-img
or I/O failure. -/
def DiskManager.create_disk (disks : List String) (vmId : String)
    (createErr : Option AppError) : Except AppError (List String) :=
  match createErr with
  | some e => .error e
  | none => .ok (if disks.contains vmId then disks else vmId :: disks)

/-- DiskManager::delete_disk from storage/mod.rs at the state level: the
file is removed when present, and a missing file is not an error.
Removal of an existing file succeeds on the modelled filesystem. -/
def DiskManager.delete_disk (disks : List String) (vmId : String) :
    List String :=
  disks.filter (fun d => d != vmId)

/-- QemuController::start_vm from qemu/controller.rs: spawn the process
(outcome injected through spawn, an Err models Command::spawn failing),
then insert the new handle into running_vms, replacing any entry already
present for the id.  There is no already-running guard in the source. -/
def QemuController.start_vm (table : List (String × VMHandle)) (vmId : String)
    (spawn : Except AppError Nat) (qmpSocket : Option String) :
    Except AppError (Nat × List (String × VMHandle)) :=
  match spawn with
  | .error e => .error e
  | .ok pid =>
    .ok (pid, kvSet table vmId { vmId := vmId, pid := pid, qmpSocket := qmpSocket })

/-- QemuController::stop_vm from qemu/controller.rs: remove the handle and
kill the process, or fail with VMError when the id is not supervised. -/
def QemuController.stop_vm (table : List (String × VMHandle)) (vmId : String) :
    Except AppError (List (String × VMHandle)) :=
  match kvGet table vmId with
  | some _ => .ok (kvRemove table vmId)
  | none => .error (.vmError ("VM not running"))

/-- QemuController::pause_vm from qemu/controller.rs: succeeds exactly when
the id is present in running_vms; no protocol command is issued. -/
def QemuController.pause_vm (table : List (String × VMHandle)) (vmId : String) :
    Except AppError Unit :=
  match kvGet table vmId with
  | some _ => .ok ()
  | none => .error (.vmError ("VM not running"))

/-- QemuController::resume_vm from qemu/controller.rs: succeeds exactly
when the id is present in running_vms. -/
def QemuController.resume_vm (table : List (String × VMHandle)) (vmId : String) :
    Except AppError Unit :=
  match kvGet table vmId with
  | some _ => .ok ()
  | none => .error (.vmError ("VM not running"))

/-- Modelled from the spec: QemuController::is_running is called from
commands.rs but absent from src/qemu/controller.rs (only its callers are
in src); per the spec the supervisor is consulted only to know whether a
VM is currently running, i.e. whether the id is currently supervised in
the running-VM table. -/
def QemuController.is_running (table : List (String × VMHandle)) (vmId : String) :
    Bool :=
  (kvGet table vmId).isSome

/-- create_vm from commands.rs.  newId stands for the freshly generated
UUID; diskErr and regErr inject failure of qemu-img disk creation and of
the SQLite INSERT (duplicate primary key or I/O). -/
def create_vm (st : SysState) (config : VMConfig) (newId : String)
    (diskErr : Option AppError) (regErr : Option AppError) :
    Except String VM × SysState :=
  match validate_vm_config config with
  | .error e => (.error e, st)
  | .ok _ =>
    match DiskManager.create_disk st.disks newId diskErr with
    | .error e => (.error e.toMessage, st)
    | .ok disks1 =>
      let st1 := { st with disks := disks1 }
      let record : VMRecord :=
        { id := newId, name := config.name, status := "stopped",
          memoryMb := config.memoryMb, cpuCores := config.cpuCores,
          diskSizeGb := config.diskSizeGb, os := config.os }
      match regErr with
      | some err =>
        (.error err.toMessage,
         { st1 with disks := DiskManager.delete_disk st1.disks record.id })
      | none =>
        (.ok (map_record_to_vm record),
         { st1 with registry := kvSet st1.registry newId record })

/-- start_vm from commands.rs: validate the id, fetch the record, build
the launch plan, spawn via the controller, persist the running status,
then mark any existing display session connected. -/
def start_vm (st : SysState) (id : String) (accel : Accelerator)
    (spawn : Except AppError Nat) (updErr : Option String) :
    Except String Unit × SysState :=
  if blankId id then (.error ("VM ID cannot be empty"), st)
  else
    match fetch_vm_or_err st.registry id with
    | .error e => (.error e, st)
    | .ok vmRecord =>
      let qmpSocket := "/tmp/openutm-qmp-" ++ id ++ ".sock"
      match build_start_args accel vmRecord (disk_path st.storageDir id) qmpSocket with
      | .error e => (.error e, st)
      | .ok _args =>
        match QemuController.start_vm st.table id spawn (some qmpSocket) with
        | .error e => (.error e.toMessage, st)
        | .ok (_pid, table2) =>
          let st1 := { st with table := table2 }
          match update_vm_status st1.registry id VMStatus.running updErr with
          | .error e => (.error e, st1)
          | .ok reg2 =>
            let st2 := { st1 with registry := reg2 }
            let sessions2 :=
              match kvGet st2.sessions id with
              | some existing =>
                kvSet st2.sessions id
                  { existing with status := "connected", lastError := none }
              | none => st2.sessions
            (.ok (), { st2 with sessions := sessions2 })

/-- stop_vm from commands.rs: validate the id, remove the handle via the
controller (failing when not supervised), persist the stopped status,
then mark any existing display session disconnected. -/
def stop_vm (st : SysState) (id : String) (updErr : Option String) :
    Except String Unit × SysState :=
  if blankId id then (.error ("VM ID cannot be empty"), st)
  else
    match QemuController.stop_vm st.table id with
    | .error e => (.error e.toMessage, st)
    | .ok table2 =>
      let st1 := { st with table := table2 }
      match update_vm_status st1.registry id VMStatus.stopped updErr with
      | .error e => (.error e, st1)
      | .ok reg2 =>
        let st2 := { st1 with registry := reg2 }
        let sessions2 :=
          match kvGet st2.sessions id with
          | some existing =>
            kvSet st2.sessions id
              { existing with status := "disconnected",
                              lastError := some ("VM stopped") }
          | none => st2.sessions
        (.ok (), { st2 with sessions := sessions2 })

/-- pause_vm from commands.rs: controller membership check, then persist
the paused status tag. -/
def pause_vm (st : SysState) (id : String) (updErr : Option String) :
    Except String Unit × SysState :=
  if blankId id then (.error ("VM ID cannot be empty"), st)
  else
    match QemuController.pause_vm st.table id with
    | .error e => (.error e.toMessage, st)
    | .ok _ =>
      match update_vm_status st.registry id VMStatus.paused updErr with
      | .error e => (.error e, st)
      | .ok reg2 => (.ok (), { st with registry := reg2 })

/-- resume_vm from commands.rs: controller membership check, then persist
the running status tag. -/
def resume_vm (st : SysState) (id : String) (updErr : Option String) :
    Except String Unit × SysState :=
  if blankId id then (.error ("VM ID cannot be empty"), st)
  else
    match QemuController.resume_vm st.table id with
    | .error e => (.error e.toMessage, st)
    | .ok _ =>
      match update_vm_status st.registry id VMStatus.running updErr with
      | .error e => (.error e, st)
      | .ok reg2 => (.ok (), { st with registry := reg2 })

/-- delete_vm from commands.rs: a blank id is rejected; an id with no
registry row returns Ok with no effect; otherwise the controller stop is
attempted best-effort (its result discarded), then the disk, the registry
row and the display session are removed.  SQLite and filesystem failures
on this path are not injected; no modelled claim exercises them. -/
def delete_vm (st : SysState) (id : String) : Except String Unit × SysState :=
  if blankId id then (.error ("VM ID cannot be empty"), st)
  else
    match kvGet st.registry id with
    | none => (.ok (), st)
    | some _ =>
      let table2 :=
        match QemuController.stop_vm st.table id with
        | .ok t => t
        | .error _ => st.table
      (.ok (),
       { registry := kvRemove st.registry id,
         disks := DiskManager.delete_disk st.disks id,
         storageDir := st.storageDir,
         table := table2,
         sessions := kvRemove st.sessions id })

/-- open_display from commands.rs: the record must exist and the VM must
be supervised; an existing disconnected or errored session is reconnected
with its reconnect counter bumped, an existing connected session is
returned untouched, and a fresh session starts at zero attempts. -/
def open_display (st : SysState) (id : String) :
    Except String DisplaySession × SysState :=
  if blankId id then (.error ("VM ID cannot be empty"), st)
  else
    match fetch_vm_or_err st.registry id with
    | .error e => (.error e, st)
    | .ok _ =>
      if QemuController.is_running st.table id = false then
        (.error ("VM " ++ id ++ " not running"), st)
      else
        match kvGet st.sessions id with
        | some existing =>
          if existing.status = "disconnected" ∨ existing.status = "error" then
            let s2 := { existing with
                          status := "connected",
                          reconnectAttempts := existing.reconnectAttempts + 1,
                          lastError := none }
            (.ok s2, { st with sessions := kvSet st.sessions id s2 })
          else
            (.ok existing, st)
        | none =>
          let session := build_display_session id ("connected") 0 none
          (.ok session, { st with sessions := kvSet st.sessions id session })

/-- get_display from commands.rs: reconcile a stale session against the
supervisor before returning it; a session of a VM that is no longer
supervised is flipped to disconnected with an explanatory error. -/
def get_display (st : SysState) (id : String) :
    Except String (Option DisplaySession) × SysState :=
  if blankId id then (.error ("VM ID cannot be empty"), st)
  else
    let isRunning := QemuController.is_running st.table id
    match kvGet st.sessions id with
    | some existing =>
      if isRunning = false ∧ existing.status ≠ "disconnected" then
        let s2 := { existing with
                      status := "disconnected",
                      lastError := some ("VM not running") }
        (.ok (some s2), { st with sessions := kvSet st.sessions id s2 })
      else
        (.ok (some existing), st)
    | none => (.ok none, st)

/-- close_display from commands.rs: an existing session is marked
disconnected with an explanatory error; a missing session is ignored. -/
def close_display (st : SysState) (id : String) :
    Except String Unit × SysState :=
  if blankId id then (.error ("VM ID cannot be empty"), st)
  else
    match kvGet st.sessions id with
    | some existing =>
      let s2 := { existing with
                    status := "disconnected",
                    lastError := some ("Display session closed") }
      (.ok (), { st with sessions := kvSet st.sessions id s2 })
    | none => (.ok (), st)

/-- Empty system state used by concrete instances. -/
def emptySt : SysState :=
  { registry := [], disks := [], storageDir := "/s", table := [], sessions := [] }

/-- A validated configuration used by concrete instances. -/
def cfgGood : VMConfig :=
  { name := "VM", memoryMb := 2048, cpuCores := 2, diskSizeGb := 20, os := "linux" }

/-- A registry row for a running VM, fields as in the repository tests. -/
def recRunning : VMRecord :=
  { id := "vm-1", name := "Fedora VM", status := "running",
    memoryMb := 2048, cpuCores := 2, diskSizeGb := 20, os := "linux" }

/-- A system state whose VM vm-1 is supervised as running: a registry
row with the running tag and a supervisor handle with pid 100. -/
def runningSt : SysState :=
  { registry := [("vm-1", recRunning)],
    disks := ["vm-1"],
    storageDir := "/s",
    table := [("vm-1", { vmId := "vm-1", pid := 100, qmpSocket := none })],
    sessions := [] }

/-- A registry row whose persisted status tag is paused. -/
def recPaused : VMRecord :=
  { id := "vm-2", name := "Ubuntu VM", status := "paused",
    memoryMb := 4096, cpuCores := 4, diskSizeGb := 64, os := "linux" }

/-- A system state whose VM vm-2 is supervised and persisted as Paused. -/
def pausedSt : SysState :=
  { registry := [("vm-2", recPaused)],
    disks := ["vm-2"],
    storageDir := "/s",
    table := [("vm-2", { vmId := "vm-2", pid := 101, qmpSocket := none })],
    sessions := [] }

/-- A freshly opened, connected display session for vm-1. -/
def sessConn : DisplaySession :=
  build_display_session ("vm-1") ("connected") 0 none

/-- runningSt extended with a connected display session for vm-1. -/
def stSess : SysState :=
  { runningSt with sessions := [("vm-1", sessConn)] }

/-- Lookup after insert-or-replace at the same key. -/
lemma kvGet_kvSet_self {α : Type} (l : List (String × α)) (k : String) (v : α) :
    kvGet (kvSet l k v) k = some v := by
  induction l with
  | nil => simp [kvSet, kvGet]
  | cons p rest ih =>
    obtain ⟨k1, v1⟩ := p
    by_cases h : k1 = k
    · simp [kvSet, h, kvGet]
    · simp [kvSet, h, kvGet, ih]

/-- Lookup after removal at the same key. -/
lemma kvGet_kvRemove_self {α : Type} (l : List (String × α)) (k : String) :
    kvGet (kvRemove l k) k = none := by
  induction l with
  | nil => simp [kvRemove, kvGet]
  | cons p rest ih =>
    obtain ⟨k1, v1⟩ := p
    by_cases h : k1 = k
    · simp [kvRemove, h, ih]
    · simp [kvRemove, h, kvGet, ih]

/-- A string starting with the port key is never empty. -/
lemma port_prefix_nonempty (t : String) : ("port=" ++ t).isEmpty = false := by
  rw [Bool.eq_false_iff]
  intro h
  have h2 := (String.isEmpty_iff _).mp h
  have h3 := congrArg String.data h2
  simp [String.data_append] at h3

/-- The -spice value produced for the start configuration of commands.rs. -/
lemma spiceStr_start_config (p : Nat) :
    spiceStr { kind := "spice", port := some p,
               options := [("addr", "127.0.0.1"), ("disable-ticketing", "on")] } =
      "port=" ++ toString p ++ ",addr=127.0.0.1,disable-ticketing=on" := by
  simp [spiceStr, List.foldl, port_prefix_nonempty, String.append_assoc]

/-- Closed form of build_start_args on a record with nonzero cpu and
memory: the structural arguments in builder order, then the control
socket pair, then the name pair. -/
lemma build_start_args_spec (accel : Accelerator) (vm : VMRecord)
    (disk qmpSocket : String) (hcpu : vm.cpuCores ≠ 0) (hmem : vm.memoryMb ≠ 0) :
    build_start_args accel vm disk qmpSocket =
      .ok (["-machine", "q35", "-accel", accel.as_str,
            "-smp", toString vm.cpuCores, "-m", toString vm.memoryMb,
            "-drive", "file=" ++ disk ++ ",format=qcow2,if=virtio",
            "-netdev", "user,id=net0",
            "-spice", "port=" ++ toString (resolve_spice_port vm.id) ++
              ",addr=127.0.0.1,disable-ticketing=on",
            "-device", "usb-tablet",
            "-qmp", "unix:" ++ qmpSocket ++ ",server=on,wait=off",
            "-name", vm.name]) := by
  rw [build_start_args, if_neg hcpu, if_neg hmem]
  simp [QemuCommand.build, driveStr, netdevStr, spiceStr_start_config,
        MachineType.as_str, String.append_assoc]

/-- Claim C4: the display-port derivation is a pure function of the VM id:
recomputing it yields the same value, and for every id (the empty string
included) the port lies in the fixed range 5900..6899, being the base
port 5900 plus a rolling hash reduced modulo a window of 1000. -/
theorem resolve_spice_port_pure_and_in_range (id : String) :
    resolve_spice_port id = resolve_spice_port id ∧
    5900 ≤ resolve_spice_port id ∧ resolve_spice_port id ≤ 6899 := by
  refine ⟨rfl, Nat.le_add_right 5900 _, ?_⟩
  have h := spiceFold_lt (stringBytes id) 0 (by norm_num)
  unfold resolve_spice_port
  omega

/-- Claim C8: for every record with nonzero cpu and memory, the built
launch argument list is the structural arguments (machine, accelerator,
cpu, memory, drive, netdev, display, input device) followed by the
control-socket pair and then the name pair, so -qmp with its socket value
and -name with the VM name appear in that relative order after all
structural arguments. -/
theorem build_start_args_qmp_name_after_structural (accel : Accelerator)
    (vm : VMRecord) (disk qmpSocket : String)
    (hcpu : vm.cpuCores ≠ 0) (hmem : vm.memoryMb ≠ 0) :
    build_start_args accel vm disk qmpSocket =
      .ok ((["-machine", "q35", "-accel", accel.as_str,
             "-smp", toString vm.cpuCores, "-m", toString vm.memoryMb,
             "-drive", "file=" ++ disk ++ ",format=qcow2,if=virtio",
             "-netdev", "user,id=net0",
             "-spice", "port=" ++ toString (resolve_spice_port vm.id) ++
               ",addr=127.0.0.1,disable-ticketing=on",
             "-device", "usb-tablet"] ++
            ["-qmp", "unix:" ++ qmpSocket ++ ",server=on,wait=off"]) ++
           ["-name", vm.name]) := by
  rw [build_start_args_spec accel vm disk qmpSocket hcpu hmem]
  simp

/-- Witness for claim C8 at the Fedora record of the repository tests. -/
theorem build_start_args_qmp_name_witness :
    recRunning.cpuCores ≠ 0 ∧ recRunning.memoryMb ≠ 0 ∧
    build_start_args Accelerator.kvm recRunning ("/s/vm-1.qcow2")
        ("/tmp/openutm-qmp-vm-1.sock") =
      .ok (["-machine", "q35", "-accel", "kvm", "-smp", "2", "-m", "2048",
            "-drive", "file=/s/vm-1.qcow2,format=qcow2,if=virtio",
            "-netdev", "user,id=net0",
            "-spice", "port=6431,addr=127.0.0.1,disable-ticketing=on",
            "-device", "usb-tablet",
            "-qmp", "unix:/tmp/openutm-qmp-vm-1.sock,server=on,wait=off",
            "-name", "Fedora VM"]) := by
  refine ⟨by decide, by decide, ?_⟩
  rw [build_start_args_qmp_name_after_structural Accelerator.kvm recRunning
      ("/s/vm-1.qcow2") ("/tmp/openutm-qmp-vm-1.sock") (by decide) (by decide)]
  decide

/-- Claim C3: for every valid configuration, if the disk allocation
succeeds but the subsequent registry insertion fails, create returns the
registry error and the allocated disk for that VM id no longer exists
afterward (compensating rollback). -/
theorem create_vm_registry_failure_rolls_back_disk
    (st : SysState) (config : VMConfig) (newId : String) (err : AppError)
    (hval : validate_vm_config config = .ok ()) :
    (create_vm st config newId none (some err)).1 = .error err.toMessage ∧
    newId ∉ (create_vm st config newId none (some err)).2.disks := by
  unfold create_vm
  rw [hval]
  simp [DiskManager.create_disk, DiskManager.delete_disk, List.mem_filter]

/-- Witness for claim C3 on the empty state with an injected database
error during registry insertion. -/
theorem create_vm_rollback_witness :
    validate_vm_config cfgGood = .ok () ∧
    (create_vm emptySt cfgGood ("vm-1") none
        (some (AppError.dbError ("disk I/O error")))).1 =
      .error ("Database error: disk I/O error") ∧
    ("vm-1" : String) ∉
      (create_vm emptySt cfgGood ("vm-1") none
        (some (AppError.dbError ("disk I/O error")))).2.disks := by
  have h := create_vm_registry_failure_rolls_back_disk emptySt cfgGood ("vm-1")
    (AppError.dbError ("disk I/O error")) (by decide)
  exact ⟨by decide, h.1.trans (by decide), h.2⟩

/-- Claim C1, divergence witness: starting vm-1 while it is already
supervised as running (handle pid 100, registry status running) returns
Ok instead of an already-running error, and replaces the supervisor entry
with a freshly spawned handle (pid 200) — the source has no
already-running guard, so the previous process is silently orphaned. -/
theorem start_vm_on_running_replaces_process :
    kvGet runningSt.table ("vm-1") =
      some { vmId := "vm-1", pid := 100, qmpSocket := none } ∧
    (start_vm runningSt ("vm-1") Accelerator.kvm (.ok 200) none).1 = .ok () ∧
    kvGet (start_vm runningSt ("vm-1") Accelerator.kvm (.ok 200) none).2.table ("vm-1") =
      some { vmId := "vm-1", pid := 200,
             qmpSocket := some ("/tmp/openutm-qmp-vm-1.sock") } := by
  decide

/-- Counterexample for claim C6: stop of the blank id, which is not
supervised, fails with the empty-id validation error, which is not the
VM-not-running error the claim names. -/
theorem stop_vm_blank_id_validation_error :
    kvGet emptySt.table ("") = none ∧
    (stop_vm emptySt ("") none).1 = .error ("VM ID cannot be empty") ∧
    (Except.error ("VM ID cannot be empty") : Except String Unit) ≠
      .error ("VM error: VM not running") := by
  decide

/-- Claim C6 as amended: stop of an unsupervised id never mutates the
state (in particular the registry row is untouched); a non-blank id fails
with the VM-not-running error, while a blank id fails with the empty-id
validation error. -/
theorem stop_vm_unsupervised_fails_preserving_registry
    (st : SysState) (id : String) (updErr : Option String)
    (hrun : kvGet st.table id = none) :
    (stop_vm st id updErr).2 = st ∧
    (blankId id = false →
       (stop_vm st id updErr).1 = .error ("VM error: VM not running")) ∧
    (blankId id = true →
       (stop_vm st id updErr).1 = .error ("VM ID cannot be empty")) := by
  unfold stop_vm QemuController.stop_vm
  rw [hrun]
  by_cases hb : blankId id
  · simp [hb]
  · simp [hb, AppError.toMessage]

/-- Witness for amended claim C6 on an unknown id over the empty state. -/
theorem stop_vm_unsupervised_witness :
    (stop_vm emptySt ("ghost") none).1 = .error ("VM error: VM not running") ∧
    (stop_vm emptySt ("ghost") none).2 = emptySt := by
  have h := stop_vm_unsupervised_fails_preserving_registry emptySt ("ghost")
    none (by decide)
  exact ⟨h.2.1 (by decide), h.1⟩

/-- Counterexample for claim C10: the whitespace id, which is non-empty
and has no registry record, makes delete fail with the empty-id
validation error instead of returning success. -/
theorem delete_vm_whitespace_id_fails :
    (" " : String) ≠ "" ∧
    kvGet emptySt.registry (" ") = none ∧
    (delete_vm emptySt (" ")).1 = .error ("VM ID cannot be empty") := by
  decide

/-- Claim C10 as amended: for an id with no registry record, delete with
a non-blank id returns success and the whole state is unchanged (no stop
attempt takes effect, no disk, registry row or session is removed), while
a blank id fails with the empty-id validation error, also unchanged. -/
theorem delete_vm_no_record_is_noop
    (st : SysState) (id : String)
    (hreg : kvGet st.registry id = none) :
    (blankId id = false → delete_vm st id = (.ok (), st)) ∧
    (blankId id = true → delete_vm st id = (.error ("VM ID cannot be empty"), st)) := by
  constructor <;> intro hb <;> simp [delete_vm, hb, hreg]

/-- Witness for amended claim C10 on an unknown id over the empty state. -/
theorem delete_vm_no_record_witness :
    delete_vm emptySt ("ghost") = (.ok (), emptySt) :=
  (delete_vm_no_record_is_noop emptySt ("ghost") (by decide)).1 (by decide)

/-- Counterexample for claim C2: pause of vm-2, supervised and persisted
as Paused, succeeds, and resume of vm-1, supervised and persisted as
Running, succeeds, instead of failing with a VM-not-running error as the
claim requires for those states. -/
theorem pause_paused_resume_running_succeed :
    (kvGet pausedSt.registry ("vm-2")).map VMRecord.status = some ("paused") ∧
    (kvGet pausedSt.table ("vm-2")).isSome = true ∧
    (pause_vm pausedSt ("vm-2") none).1 = .ok () ∧
    (kvGet runningSt.registry ("vm-1")).map VMRecord.status = some ("running") ∧
    (resume_vm runningSt ("vm-1") none).1 = .ok () := by
  decide

/-- Claim C2 as amended: pause and resume check only supervision, not the
Running versus Paused distinction.  For a non-blank id, both fail with
the VM-not-running error exactly when the id is absent from the
running-VM table, and both succeed whenever the id is supervised and has
a registry row and the status write succeeds — pause of an already-Paused
VM and resume of a Running VM included. -/
theorem pause_resume_depend_only_on_supervision
    (st : SysState) (id : String) (r : VMRecord)
    (hblank : blankId id = false) :
    (kvGet st.table id = none →
       (pause_vm st id none).1 = .error ("VM error: VM not running") ∧
       (resume_vm st id none).1 = .error ("VM error: VM not running")) ∧
    ((kvGet st.table id).isSome = true → kvGet st.registry id = some r →
       (pause_vm st id none).1 = .ok () ∧
       (resume_vm st id none).1 = .ok ()) := by
  constructor
  · intro h
    simp [pause_vm, resume_vm, hblank, QemuController.pause_vm,
          QemuController.resume_vm, h, AppError.toMessage]
  · intro h hr
    obtain ⟨v, hv⟩ := Option.isSome_iff_exists.mp h
    simp [pause_vm, resume_vm, hblank, QemuController.pause_vm,
          QemuController.resume_vm, hv, update_vm_status, fetch_vm_or_err, hr]

/-- Witness for amended claim C2: an unsupervised id fails with the
VM-not-running error, and pause of the supervised, already-Paused vm-2
succeeds. -/
theorem pause_resume_depend_only_on_supervision_witness :
    (pause_vm emptySt ("ghost") none).1 = .error ("VM error: VM not running") ∧
    (pause_vm pausedSt ("vm-2") none).1 = .ok () :=
  ⟨((pause_resume_depend_only_on_supervision emptySt ("ghost") recPaused
      (by decide)).1 (by decide)).1,
   ((pause_resume_depend_only_on_supervision pausedSt ("vm-2") recPaused
      (by decide)).2 (by decide) (by decide)).1⟩

/-- Claim C5: when the spawn during start succeeds but the registry
persistence of the running status fails, start surfaces that failure and
the spawned process stays in the supervisor running-VM table with its
handle intact (the process is not killed). -/
theorem start_vm_persist_failure_keeps_process
    (st : SysState) (id : String) (accel : Accelerator) (r : VMRecord)
    (pid : Nat) (e : String)
    (hblank : blankId id = false)
    (hreg : kvGet st.registry id = some r)
    (hcpu : r.cpuCores ≠ 0) (hmem : r.memoryMb ≠ 0) :
    (start_vm st id accel (.ok pid) (some e)).1 = .error e ∧
    kvGet (start_vm st id accel (.ok pid) (some e)).2.table id =
      some { vmId := id, pid := pid,
             qmpSocket := some ("/tmp/openutm-qmp-" ++ id ++ ".sock") } := by
  simp [start_vm, hblank, fetch_vm_or_err, hreg,
        build_start_args_spec accel r (disk_path st.storageDir id)
          ("/tmp/openutm-qmp-" ++ id ++ ".sock") hcpu hmem,
        QemuController.start_vm, update_vm_status, kvGet_kvSet_self]

/-- Witness for claim C5: starting vm-1 with a successful spawn and a
failing status write surfaces the write error while keeping the new
handle supervised. -/
theorem start_vm_persist_failure_witness :
    (start_vm runningSt ("vm-1") Accelerator.kvm (.ok 200) (some ("db locked"))).1 =
      .error ("db locked") ∧
    kvGet (start_vm runningSt ("vm-1") Accelerator.kvm (.ok 200)
        (some ("db locked"))).2.table ("vm-1") =
      some { vmId := "vm-1", pid := 200,
             qmpSocket := some ("/tmp/openutm-qmp-vm-1.sock") } := by
  have h := start_vm_persist_failure_keeps_process runningSt ("vm-1")
    Accelerator.kvm recRunning 200 ("db locked") (by decide) (by decide)
    (by decide) (by decide)
  exact ⟨h.1, h.2.trans (by decide)⟩

/-- Claim C7: open-display fails whenever the VM is not currently Running
(no registry row or not supervised); for a non-blank id of a Running VM,
assuming the session map well-formedness that open itself maintains, it
returns a connected session on the deterministically derived port, with
the reconnect counter incremented exactly when re-opening a previously
disconnected or errored session and starting at zero on a fresh open. -/
theorem open_display_running_semantics
    (st : SysState) (id : String)
    (hwf : ∀ s, kvGet st.sessions id = some s →
        s.port = resolve_spice_port id ∧
        (s.status = "connected" ∨ s.status = "disconnected" ∨ s.status = "error")) :
    ((kvGet st.registry id = none ∨ kvGet st.table id = none) →
        ∃ e, (open_display st id).1 = .error e) ∧
    (blankId id = false → ∀ r, kvGet st.registry id = some r →
        (kvGet st.table id).isSome = true →
        ∃ s, (open_display st id).1 = .ok s ∧
          s.port = resolve_spice_port id ∧ s.status = "connected" ∧
          (kvGet st.sessions id = none → s.reconnectAttempts = 0) ∧
          (∀ s0, kvGet st.sessions id = some s0 → s0.status = "connected" →
              s = s0) ∧
          (∀ s0, kvGet st.sessions id = some s0 →
              s0.status = "disconnected" ∨ s0.status = "error" →
              s.reconnectAttempts = s0.reconnectAttempts + 1)) := by
  constructor
  · intro h
    by_cases hb : blankId id
    · exact ⟨"VM ID cannot be empty", by simp [open_display, hb]⟩
    · cases hreg : kvGet st.registry id with
      | none =>
        exact ⟨"VM " ++ id ++ " not found",
          by simp [open_display, hb, fetch_vm_or_err, hreg]⟩
      | some r =>
        have htab : kvGet st.table id = none := by
          rcases h with h1 | h1
          · rw [hreg] at h1; exact absurd h1 (by simp)
          · exact h1
        exact ⟨"VM " ++ id ++ " not running",
          by simp [open_display, hb, fetch_vm_or_err, hreg,
                   QemuController.is_running, htab]⟩
  · intro hb r hreg htab
    cases hsess : kvGet st.sessions id with
    | none =>
      refine ⟨build_display_session id ("connected") 0 none, ?_, ?_, ?_, ?_, ?_, ?_⟩
      · simp [open_display, hb, fetch_vm_or_err, hreg, QemuController.is_running,
              htab, hsess]
      · simp [build_display_session]
      · simp [build_display_session]
      · intro _; simp [build_display_session]
      · intro s1 h1 _; exact absurd h1 (by simp)
      · intro s1 h1 _; exact absurd h1 (by simp)
    | some s0 =>
      obtain ⟨hport, hstat⟩ := hwf s0 hsess
      rcases hstat with hc | hde
      · have hcond : ¬(s0.status = "disconnected" ∨ s0.status = "error") := by
          rw [hc]; decide
        refine ⟨s0, ?_, hport, hc, ?_, ?_, ?_⟩
        · simp [open_display, hb, fetch_vm_or_err, hreg, QemuController.is_running,
                htab, hsess, hcond]
        · intro hn; exact absurd hn (by simp)
        · intro s1 h1 _; exact Option.some.inj h1
        · intro s1 h1 hds
          cases Option.some.inj h1
          rcases hds with h2 | h2 <;> rw [hc] at h2 <;> exact absurd h2 (by decide)
      · refine ⟨{ s0 with status := "connected", reconnectAttempts := s0.reconnectAttempts + 1, lastError := none }, ?_, hport, rfl, ?_, ?_, ?_⟩
        · simp [open_display, hb, fetch_vm_or_err, hreg, QemuController.is_running,
                htab, hsess, hde]
        · intro hn; exact absurd hn (by simp)
        · intro s1 h1 hc1
          cases Option.some.inj h1
          rcases hde with h2 | h2 <;> rw [hc1] at h2 <;> exact absurd h2 (by decide)
        · intro s1 h1 _
          cases Option.some.inj h1
          rfl

/-- Witness for claim C7: opening the display of the running vm-1 with no
prior session yields a fresh connected session on the derived port. -/
theorem open_display_running_witness :
    ∃ s, (open_display runningSt ("vm-1")).1 = .ok s ∧
      s.port = resolve_spice_port ("vm-1") ∧ s.status = "connected" ∧
      (kvGet runningSt.sessions ("vm-1") = none → s.reconnectAttempts = 0) ∧
      (∀ s0, kvGet runningSt.sessions ("vm-1") = some s0 →
          s0.status = "connected" → s = s0) ∧
      (∀ s0, kvGet runningSt.sessions ("vm-1") = some s0 →
          s0.status = "disconnected" ∨ s0.status = "error" →
          s.reconnectAttempts = s0.reconnectAttempts + 1) :=
  (open_display_running_semantics runningSt ("vm-1")
      (by intro s h; simp [runningSt, kvGet] at h)).2
    (by decide) recRunning (by decide) (by decide)

/-- Claim C9: for a VM whose display session is currently connected,
after a stop of that VM (whatever its outcome, the id is no longer
supervised afterwards) a get-display call returns a session that is
disconnected with a non-empty explanatory last error. -/
theorem get_display_after_stop_reports_disconnected
    (st : SysState) (id : String) (s0 : DisplaySession) (updErr : Option String)
    (hblank : blankId id = false)
    (hsess : kvGet st.sessions id = some s0)
    (hconn : s0.status = "connected") :
    ∃ s e, (get_display (stop_vm st id updErr).2 id).1 = .ok (some s) ∧
      s.status = "disconnected" ∧ s.lastError = some e ∧ e ≠ "" := by
  cases htab : kvGet st.table id with
  | none =>
    refine ⟨{ s0 with status := "disconnected", lastError := some ("VM not running") }, "VM not running", ?_, rfl, rfl, by decide⟩
    simp [stop_vm, hblank, QemuController.stop_vm, htab, get_display,
          QemuController.is_running, hsess, hconn]
  | some v =>
    cases hupd : update_vm_status st.registry id VMStatus.stopped updErr with
    | error e1 =>
      refine ⟨{ s0 with status := "disconnected", lastError := some ("VM not running") }, "VM not running", ?_, rfl, rfl, by decide⟩
      simp [stop_vm, hblank, QemuController.stop_vm, htab, hupd, get_display,
            QemuController.is_running, kvGet_kvRemove_self, hsess, hconn]
    | ok reg2 =>
      refine ⟨{ s0 with status := "disconnected", lastError := some ("VM stopped") }, "VM stopped", ?_, rfl, rfl, by decide⟩
      simp [stop_vm, hblank, QemuController.stop_vm, htab, hupd, get_display,
            QemuController.is_running, kvGet_kvRemove_self, kvGet_kvSet_self,
            hsess, hconn]

/-- Witness for claim C9: stopping vm-1 with its connected session and
then querying the display reports a disconnected session with a
non-empty error. -/
theorem get_display_after_stop_witness :
    ∃ s e, (get_display (stop_vm stSess ("vm-1") none).2 ("vm-1")).1 =
        .ok (some s) ∧
      s.status = "disconnected" ∧ s.lastError = some e ∧ e ≠ "" :=
  get_display_after_stop_reports_disconnected stSess ("vm-1") sessConn none
    (by decide) (by decide) (by decide)

end OpenUTM
